import Mathlib

/-!
Shallow embedding of the Cartesia streaming TTS service
(src/pipecat/services/cartesia.py): the connection manager, the inbound
message demultiplexer, the timeline replay scheduler, the interruption
handler and the outbound request encoder, together with theorems about
the buffered word-timestamp replay behaviour.

Modelling conventions:
- wall-clock times and word end-offsets (Python floats, seconds) are ℚ;
- the nullable websocket handle and the two asyncio task handles are
  booleans recording presence;
- audio payloads are carried as their decoded byte lists (base64
  decoding is a bijection on valid payloads, so the wire encoding is
  elided);
- fallible external calls (websockets.connect, websocket.send,
  websocket.close) take a boolean parameter choosing their outcome;
- metric hooks and frame pushes are recorded as an ordered event list.
-/

namespace CartesiaTTS

/-- Output format configuration (the _output_format dict built in __init__). -/
structure OutputFormat where
  container : String
  encoding : String
  sample_rate : ℕ
deriving DecidableEq

/-- Frames pushed downstream by the service. -/
inductive Frame
  | audioRaw (audio : List ℕ) (sample_rate : ℕ) (num_channels : ℕ)
  | text (t : String)
  | llmFullResponseEnd
deriving DecidableEq

/-- Outbound synthesis request built by run_tts (the msg dict of lines
204-216; the continue field is continue_ since continue is reserved). -/
structure Request where
  transcript : String
  continue_ : Bool
  context_id : String
  model_id : String
  voice_mode : String
  voice_id : String
  output_format : OutputFormat
  language : String
  add_timestamps : Bool
deriving DecidableEq

/-- Observable effects, in program order: frame pushes, metric hook calls,
task cancellations, websocket operations.  resetContextState marks the
execution of the state-reset assignments in disconnect (lines 122-125);
superHandleInterruption marks the parent-class call in handle_interruption
(outside src; modelled from the spec, which attributes no end-of-response
marker to it). -/
inductive Event
  | pushFrame (f : Frame)
  | startTTFB
  | stopTTFB
  | stopAllMetrics
  | cancelContextAppendingTask
  | cancelReceiveTask
  | closeWs
  | resetContextState
  | connectAttempt
  | sendAttempt (req : Request)
  | superHandleInterruption
  | yieldedNone
deriving DecidableEq

/-- Mutable state of CartesiaTTSService (fields set in __init__ plus the
immutable configuration the operations read). -/
structure TTSState where
  model_id : String
  voice_id : String
  output_format : OutputFormat
  language : String
  websocket : Bool
  context_id : Option String
  context_id_start_timestamp : Option ℚ
  timestamped_words_buffer : List (String × ℚ)
  receive_task : Bool
  context_appending_task : Bool
  waiting_for_ttfb : Bool
deriving DecidableEq

/-- Well-formed inbound server messages per the wire protocol: every message
is tagged with a type in {done, timestamps, chunk} and carries a string
context_id. -/
inductive ServerMsg
  | done (context_id : String)
  | timestamps (context_id : String) (words : List String) (ends : List ℚ)
  | chunk (context_id : String) (data : List ℕ)
deriving DecidableEq

/-- Context id carried by a well-formed server message. -/
def msgContextId : ServerMsg → String
  | .done cid => cid
  | .timestamps cid _ _ => cid
  | .chunk cid _ => cid

/-- Raw inbound payloads as the receive loop sees them, before field access:
a Python-falsy JSON value (dropped by the `not msg` test), a non-falsy
record lacking a context_id key (KeyError on subscript), an unparsable
payload (json.loads raises), or a well-formed message. -/
inductive RawMsg
  | empty
  | noContextId
  | unparsable
  | msg (m : ServerMsg)
deriving DecidableEq

/-- Python truthiness of the optional start timestamp: None and 0.0 are
falsy. -/
def optQTruthy : Option ℚ → Bool
  | none => false
  | some q => decide (q ≠ 0)

/-- Sentinel entry appended to the timeline buffer on a done message
(line 149). -/
def sentinelEntry : String × ℚ := ("LLMFullResponseEndFrame", 0)

/-- Body of the inbound demultiplexer loop for one raw message
(_receive_task_handler, lines 140-167).  An error value models an
exception escaping the loop body (there is no per-message handler: the
try/except wraps the whole loop). -/
def processMsg (s : TTSState) (raw : RawMsg) (now : ℚ) :
    Except String (TTSState × List Event) :=
  match raw with
  | .unparsable => .error "json.loads failed"
  | .empty => .ok (s, [])
  | .noContextId => .error "KeyError: context_id"
  | .msg m =>
    if s.context_id ≠ some (msgContextId m) then .ok (s, [])
    else
      match m with
      | .done _ =>
        .ok ({ s with context_id := none,
                      timestamped_words_buffer :=
                        s.timestamped_words_buffer ++ [sentinelEntry] }, [])
      | .timestamps _ ws es =>
        .ok ({ s with timestamped_words_buffer :=
                        s.timestamped_words_buffer ++ ws.zip es }, [])
      | .chunk _ data =>
        let s1 := if optQTruthy s.context_id_start_timestamp then s
                  else { s with context_id_start_timestamp := some now }
        let s2 := if s1.waiting_for_ttfb then { s1 with waiting_for_ttfb := false }
                  else s1
        let evs := (if s1.waiting_for_ttfb then [Event.stopTTFB] else []) ++
          [Event.pushFrame (Frame.audioRaw data s.output_format.sample_rate 1)]
        .ok (s2, evs)

/-- The inbound demultiplexer loop over a list of timestamped raw messages
(_receive_task_handler).  The surrounding try/except catches an exception
raised while handling any one message, logs it, and the whole loop
terminates: the remaining messages are never processed. -/
def receive_loop : TTSState → List (RawMsg × ℚ) → TTSState × List Event
  | s, [] => (s, [])
  | s, (raw, now) :: rest =>
    match processMsg s raw now with
    | .error _ => (s, [])
    | .ok (s1, evs) =>
      let r := receive_loop s1 rest
      (r.1, evs ++ r.2)

/-- Frame emitted for a popped timeline entry (lines 182-186): the
sentinel yields the forced end-of-response frame, anything else a text
frame carrying the word. -/
def entryFrame (p : String × ℚ) : Frame :=
  if p.1 = "LLMFullResponseEndFrame" ∧ p.2 = 0 then Frame.llmFullResponseEnd
  else Frame.text p.1

/-- Inner while loop of the scheduler tick (lines 180-186): pop entries
from the front while the front entry's offset is at most the elapsed
time, emitting a frame for each; return the remaining buffer and the
frames in emission order. -/
def drain : List (String × ℚ) → ℚ → List (String × ℚ) × List Frame
  | [], _ => ([], [])
  | p :: rest, elapsed =>
    if p.2 ≤ elapsed then
      let r := drain rest elapsed
      (r.1, entryFrame p :: r.2)
    else (p :: rest, [])

/-- One iteration of the timeline replay scheduler
(_context_appending_task_handler, lines 174-186): skip when the start
timestamp is Python-falsy (None or 0.0), otherwise drain all due entries
against elapsed = now - start. -/
def tick (s : TTSState) (now : ℚ) : TTSState × List Event :=
  match s.context_id_start_timestamp with
  | none => (s, [])
  | some start =>
    if start = 0 then (s, [])
    else
      let r := drain s.timestamped_words_buffer (now - start)
      ({ s with timestamped_words_buffer := r.1 }, r.2.map Event.pushFrame)

/-- A run of consecutive scheduler iterations at the given wall-clock
times. -/
def runTicks : TTSState → List ℚ → TTSState × List Event
  | s, [] => (s, [])
  | s, now :: rest =>
    let r1 := tick s now
    let r2 := runTicks r1.1 rest
    (r2.1, r1.2 ++ r2.2)

/-- State right after __init__ (lines 79-85). -/
def initState (model_id voice_id : String) (output_format : OutputFormat)
    (language : String) : TTSState :=
  { model_id := model_id, voice_id := voice_id,
    output_format := output_format, language := language,
    websocket := false, context_id := none,
    context_id_start_timestamp := none, timestamped_words_buffer := [],
    receive_task := false, context_appending_task := false,
    waiting_for_ttfb := false }

/-- connect (lines 99-108): on success store the handle and spawn the two
background tasks; on an exception the handle is set to None and no task is
spawned. -/
def connect (s : TTSState) (connectFails : Bool) : TTSState × List Event :=
  if connectFails then ({ s with websocket := false }, [Event.connectAttempt])
  else ({ s with websocket := true, receive_task := true,
                 context_appending_task := true }, [Event.connectAttempt])

/-- disconnect (lines 110-128).  The whole body sits in one try/except: if
closing the websocket raises, the exception is logged and the state-reset
assignments of lines 122-125 (and stop_all_metrics) are skipped.  Task
cancellation is requested via Task.cancel() and never awaited. -/
def disconnect (s : TTSState) (closeRaises : Bool) : TTSState × List Event :=
  let s1 := { s with context_appending_task := false }
  let e1 := if s.context_appending_task then [Event.cancelContextAppendingTask] else []
  let s2 := { s1 with receive_task := false }
  let e2 := if s.receive_task then [Event.cancelReceiveTask] else []
  if s.websocket then
    let s3 := { s2 with websocket := false }
    if closeRaises then (s3, e1 ++ e2 ++ [Event.closeWs])
    else
      ({ s3 with context_id := none, context_id_start_timestamp := none,
                 timestamped_words_buffer := [], waiting_for_ttfb := false },
       e1 ++ e2 ++ [Event.closeWs, Event.resetContextState, Event.stopAllMetrics])
  else
    ({ s2 with context_id := none, context_id_start_timestamp := none,
               timestamped_words_buffer := [], waiting_for_ttfb := false },
     e1 ++ e2 ++ [Event.resetContextState, Event.stopAllMetrics])

/-- handle_interruption (lines 130-136): clear context id, start timestamp
and timeline buffer, stop all metrics, and push one forced
end-of-response frame directly.  The task handles are not touched. -/
def handle_interruption (s : TTSState) : TTSState × List Event :=
  ({ s with context_id := none, context_id_start_timestamp := none,
            timestamped_words_buffer := [] },
   [Event.superHandleInterruption, Event.stopAllMetrics,
    Event.pushFrame Frame.llmFullResponseEnd])

/-- run_tts (lines 190-227).  newId stands for the uuid4 string generated
when no context is open.  If the websocket is absent after the lazy
connect, the send expression raises before anything is sent
(None.send), and the inner except runs disconnect then connect and
returns; likewise when the send itself fails. -/
def run_tts (s : TTSState) (text newId : String)
    (connectFails sendFails closeRaises reconnectFails : Bool) :
    TTSState × List Event :=
  let r1 := if s.websocket = false then connect s connectFails else (s, [])
  let s1 := r1.1
  let r2 := if s1.waiting_for_ttfb = false then
      (({ s1 with waiting_for_ttfb := true } : TTSState), [Event.startTTFB])
    else (s1, ([] : List Event))
  let s2 := r2.1
  let cid := s2.context_id.getD newId
  let s3 := { s2 with context_id := some cid }
  let req : Request :=
    { transcript := text ++ " ", continue_ := true, context_id := cid,
      model_id := s3.model_id, voice_mode := "id", voice_id := s3.voice_id,
      output_format := s3.output_format, language := s3.language,
      add_timestamps := true }
  if s3.websocket = false then
    let r4 := disconnect s3 closeRaises
    let r5 := connect r4.1 reconnectFails
    (r5.1, r1.2 ++ r2.2 ++ r4.2 ++ r5.2)
  else if sendFails then
    let r4 := disconnect s3 closeRaises
    let r5 := connect r4.1 reconnectFails
    (r5.1, r1.2 ++ r2.2 ++ [Event.sendAttempt req] ++ r4.2 ++ r5.2)
  else
    (s3, r1.2 ++ r2.2 ++ [Event.sendAttempt req, Event.yieldedNone])

/-- Interleaving steps for whole-system traces: an inbound message handled
by the receive task (a no-op once that task is gone; an exception ends the
receive loop), a scheduler iteration, an interruption, a run_tts call, or a
disconnect. -/
inductive Step
  | recv (raw : RawMsg) (now : ℚ)
  | tickAt (now : ℚ)
  | interrupt
  | runTTSStep (text newId : String)
      (connectFails sendFails closeRaises reconnectFails : Bool)
  | disconnectStep (closeRaises : Bool)

/-- Effect of one trace step on the state. -/
def runStep (s : TTSState) : Step → TTSState × List Event
  | .recv raw now =>
    if s.receive_task then
      match processMsg s raw now with
      | .error _ => ({ s with receive_task := false }, [])
      | .ok r => r
    else (s, [])
  | .tickAt now => if s.context_appending_task then tick s now else (s, [])
  | .interrupt => handle_interruption s
  | .runTTSStep text newId a b c d => run_tts s text newId a b c d
  | .disconnectStep cr => disconnect s cr

/-- A whole-system trace: fold runStep, concatenating events. -/
def run : TTSState → List Step → TTSState × List Event
  | s, [] => (s, [])
  | s, st :: rest =>
    let r1 := runStep s st
    let r2 := run r1.1 rest
    (r2.1, r1.2 ++ r2.2)

/-- Number of forced end-of-response frames in an event list. -/
def countLLMEnd (evs : List Event) : ℕ :=
  evs.count (Event.pushFrame Frame.llmFullResponseEnd)

/-- Default output format of __init__. -/
def fmt0 : OutputFormat := { container := "raw", encoding := "pcm_s16le", sample_rate := 16000 }

/-- A freshly constructed service with default-ish configuration. -/
def fresh0 : TTSState := initState "sonic-english" "voice-1" fmt0 "en"

/-- The fresh service after a successful connect. -/
def conn0 : TTSState := (connect fresh0 false).1

/-! ### Scheduler drain characterisation -/

/-- A timeline entry is due at elapsed time e when its end offset is at
most e. -/
def dueP (e : ℚ) (p : String × ℚ) : Bool := decide (p.2 ≤ e)

/-! ### Concrete states and traces used by witnesses and counterexamples -/

/-- Concrete state for the C1 witness: one buffered word then the sentinel,
context started at time 1. -/
def c1state : TTSState :=
  { conn0 with timestamped_words_buffer := [("hello", 3/10), sentinelEntry],
               context_id_start_timestamp := some 1 }

/-- State tracking context c used by witnesses of the demultiplexer claims. -/
def trackc : TTSState := { conn0 with context_id := some "c" }

/-- Trace for the C2 counterexample: a first context completes normally
(chunk at time 5, done, sentinel replayed), then a second context is opened
and its first chunk arrives at time 10. -/
def c2steps : List Step :=
  [Step.runTTSStep "hi" "c1" false false false false,
   Step.recv (RawMsg.msg (ServerMsg.chunk "c1" [0])) 5,
   Step.recv (RawMsg.msg (ServerMsg.done "c1")) 6,
   Step.tickAt 6,
   Step.runTTSStep "yo" "c2" false false false false,
   Step.recv (RawMsg.msg (ServerMsg.chunk "c2" [0])) 10]

/-- State with the timestamp already set, for the C2 amended witness. -/
def c2wstate : TTSState :=
  { conn0 with context_id := some "c2", context_id_start_timestamp := some 5 }

/-- State tracking context c, used in the C3 counterexample. -/
def c3state : TTSState := { conn0 with context_id := some "c" }

/-- State with both background tasks running, a tracked context and a
pending word, used by the C5 counterexample. -/
def c5state : TTSState :=
  { conn0 with context_id := some "c", context_id_start_timestamp := some 1,
               timestamped_words_buffer := [("hello", 1)] }

/-- Connected state with a full set of context/timeline/TTFB state, used by
the C6 counterexample. -/
def c6state : TTSState :=
  { conn0 with context_id := some "ctx-1", context_id_start_timestamp := some 2,
               timestamped_words_buffer := [("hi", 1)], waiting_for_ttfb := true }

/-- Trace for the C9 counterexample: one response is started and completes
normally (its marker replayed by the scheduler at step 4); then an
interruption arrives. -/
def c9steps : List Step :=
  [Step.runTTSStep "hi" "c1" false false false false,
   Step.recv (RawMsg.msg (ServerMsg.chunk "c1" [0])) 1,
   Step.recv (RawMsg.msg (ServerMsg.done "c1")) 2,
   Step.tickAt 2,
   Step.interrupt]

lemma dropWhile_head_false {α : Type} (p : α → Bool) :
    ∀ (l : List α) (q : α) (l' : List α), l.dropWhile p = q :: l' → p q = false := by
  intro l
  induction l with
  | nil => intro q l' h; simp [List.dropWhile] at h
  | cons a t ih =>
    intro q l' h
    rw [List.dropWhile_cons] at h
    by_cases hp : p a = true
    · rw [if_pos hp] at h; exact ih q l' h
    · rw [if_neg hp] at h
      cases h
      simpa using hp

lemma takeWhile_eq_take {α : Type} (p : α → Bool) (l : List α) :
    l.takeWhile p = l.take (l.takeWhile p).length :=
  List.prefix_iff_eq_take.mp (List.takeWhile_prefix p)

lemma dropWhile_eq_drop {α : Type} (p : α → Bool) (l : List α) :
    l.dropWhile p = l.drop (l.takeWhile p).length := by
  calc l.dropWhile p
      = (l.takeWhile p ++ l.dropWhile p).drop (l.takeWhile p).length :=
        (List.drop_left _ _).symm
    _ = l.drop (l.takeWhile p).length := by
        rw [List.takeWhile_append_dropWhile]

lemma drain_eq (e : ℚ) : ∀ l : List (String × ℚ),
    drain l e = (l.dropWhile (dueP e), (l.takeWhile (dueP e)).map entryFrame) := by
  intro l
  induction l with
  | nil => simp [drain]
  | cons p rest ih =>
    by_cases h : p.2 ≤ e
    · simp [drain, h, List.dropWhile_cons, List.takeWhile_cons, dueP, ih]
    · simp [drain, h, List.dropWhile_cons, List.takeWhile_cons, dueP]

lemma tick_spec (s : TTSState) (ts now : ℚ)
    (hts : s.context_id_start_timestamp = some ts) (h0 : ts ≠ 0) :
    tick s now =
      ({ s with timestamped_words_buffer :=
           s.timestamped_words_buffer.dropWhile (dueP (now - ts)) },
       (s.timestamped_words_buffer.takeWhile (dueP (now - ts))).map
         (fun p => Event.pushFrame (entryFrame p))) := by
  simp [tick, hts, h0, drain_eq, List.map_map, Function.comp]

/-- Full characterisation of a run of scheduler iterations: some prefix of
the buffer is emitted in order, every emitted entry was due at one of the
iteration times, and a non-empty residue is headed by an entry that was
still not due at the last iteration. -/
lemma runTicks_spec (ts : ℚ) (h0 : ts ≠ 0) :
    ∀ (times : List ℚ) (s : TTSState),
      s.context_id_start_timestamp = some ts →
    ∃ k,
      (runTicks s times).1 =
        { s with timestamped_words_buffer := s.timestamped_words_buffer.drop k } ∧
      (runTicks s times).2 =
        (s.timestamped_words_buffer.take k).map (fun p => Event.pushFrame (entryFrame p)) ∧
      (∀ p ∈ s.timestamped_words_buffer.take k, ∃ t ∈ times, p.2 ≤ t - ts) ∧
      (∀ q l', (runTicks s times).1.timestamped_words_buffer = q :: l' →
        ∀ h : times ≠ [], ¬ (q.2 ≤ times.getLast h - ts)) := by
  intro times
  induction times with
  | nil =>
    intro s hts
    refine ⟨0, ?_, ?_, ?_, ?_⟩
    · simp [runTicks]
    · simp [runTicks]
    · simp
    · intro q l' _ h; exact absurd rfl h
  | cons t rest ih =>
    intro s hts
    have htick := tick_spec s ts t hts h0
    have hs1ts : ({ s with timestamped_words_buffer :=
        s.timestamped_words_buffer.dropWhile (dueP (t - ts)) } : TTSState).context_id_start_timestamp
        = some ts := hts
    obtain ⟨k2, ha, hb, hc, hd⟩ := ih _ hs1ts
    have hrun1 : (runTicks s (t :: rest)).1 =
        (runTicks ({ s with timestamped_words_buffer :=
          s.timestamped_words_buffer.dropWhile (dueP (t - ts)) }) rest).1 := by
      simp [runTicks, htick]
    have hrun2 : (runTicks s (t :: rest)).2 =
        (s.timestamped_words_buffer.takeWhile (dueP (t - ts))).map
          (fun p => Event.pushFrame (entryFrame p)) ++
        (runTicks ({ s with timestamped_words_buffer :=
          s.timestamped_words_buffer.dropWhile (dueP (t - ts)) }) rest).2 := by
      simp [runTicks, htick]
    refine ⟨(s.timestamped_words_buffer.takeWhile (dueP (t - ts))).length + k2, ?_, ?_, ?_, ?_⟩
    · rw [hrun1, ha]
      simp only [← List.drop_drop]
      rw [← dropWhile_eq_drop]
    · rw [hrun2, hb]
      rw [List.take_add, List.map_append]
      congr 1
      · rw [← takeWhile_eq_take]
      · congr 1
        simp only [← dropWhile_eq_drop]
    · intro p hp
      rw [List.take_add] at hp
      rcases List.mem_append.mp hp with hp1 | hp2
      · refine ⟨t, List.mem_cons_self t rest, ?_⟩
        rw [← takeWhile_eq_take] at hp1
        have := List.mem_takeWhile_imp hp1
        simpa [dueP] using this
      · rw [← dropWhile_eq_drop] at hp2
        obtain ⟨t', ht', hle⟩ := hc p hp2
        exact ⟨t', List.mem_cons_of_mem t ht', hle⟩
    · intro q l' hql h
      rw [hrun1] at hql
      cases rest with
      | nil =>
        have hbuf1 : (runTicks ({ s with timestamped_words_buffer :=
            s.timestamped_words_buffer.dropWhile (dueP (t - ts)) }) []).1.timestamped_words_buffer
            = s.timestamped_words_buffer.dropWhile (dueP (t - ts)) := by
          simp [runTicks]
        rw [hbuf1] at hql
        have hfalse := dropWhile_head_false (dueP (t - ts)) _ q l' hql
        have : ¬ (q.2 ≤ t - ts) := by simpa [dueP] using hfalse
        simpa [List.getLast_singleton] using this
      | cons r rs =>
        have hne : (r :: rs : List ℚ) ≠ [] := by simp
        have := hd q l' hql hne
        rwa [List.getLast_cons hne]

lemma tick_none (s : TTSState) (h : s.context_id_start_timestamp = none)
    (now : ℚ) : tick s now = (s, []) := by
  simp [tick, h]

lemma runTicks_none (s : TTSState) (h : s.context_id_start_timestamp = none) :
    ∀ times : List ℚ, runTicks s times = (s, []) := by
  intro times
  induction times with
  | nil => simp [runTicks]
  | cons t rest ih => simp [runTicks, tick_none s h, ih]

lemma processMsg_skip (s : TTSState) (m : ServerMsg) (now : ℚ)
    (h : s.context_id ≠ some (msgContextId m)) :
    processMsg s (RawMsg.msg m) now = Except.ok (s, []) := by
  simp [processMsg, h]

/-! ### Claim theorems -/

/-- C1: for a buffered timeline of word entries followed by the completion
sentinel, a run of scheduler iterations emits frames for a prefix of the
buffer in exactly append order; every emitted entry was already due (its
end offset at most now minus the context start timestamp) at one of the
iteration times; after a non-empty run the sentinel is never left at the
front of the queue (once it reaches the front within an iteration it is
popped in that same iteration, its offset 0 being due at any non-negative
elapsed time); and if the buffer empties the forced end-of-response frame
was emitted. -/
theorem C1_timeline_replay_order (s : TTSState) (entries : List (String × ℚ))
    (ts : ℚ) (times : List ℚ)
    (hbuf : s.timestamped_words_buffer = entries ++ [sentinelEntry])
    (hts : s.context_id_start_timestamp = some ts) (h0 : 0 < ts)
    (htimes : ∀ t ∈ times, ts ≤ t) :
    ∃ k,
      (runTicks s times).2 =
        ((entries ++ [sentinelEntry]).take k).map
          (fun p => Event.pushFrame (entryFrame p)) ∧
      (runTicks s times).1.timestamped_words_buffer =
        (entries ++ [sentinelEntry]).drop k ∧
      (∀ p ∈ (entries ++ [sentinelEntry]).take k, ∃ t ∈ times, p.2 ≤ t - ts) ∧
      (∀ q l', (runTicks s times).1.timestamped_words_buffer = q :: l' →
        times ≠ [] → q ≠ sentinelEntry) ∧
      ((runTicks s times).1.timestamped_words_buffer = [] →
        Event.pushFrame Frame.llmFullResponseEnd ∈ (runTicks s times).2) := by
  obtain ⟨k, ha, hb, hc, hd⟩ := runTicks_spec ts (ne_of_gt h0) times s hts
  have habuf : (runTicks s times).1.timestamped_words_buffer =
      (entries ++ [sentinelEntry]).drop k := by
    rw [ha]; simp [hbuf]
  refine ⟨k, ?_, habuf, ?_, ?_, ?_⟩
  · rw [hb, hbuf]
  · rw [hbuf] at hc; exact hc
  · intro q l' hql hne
    have hnot := hd q l' hql hne
    intro hsent
    apply hnot
    rw [hsent]
    have hmem := List.getLast_mem hne
    have hle := htimes _ hmem
    show sentinelEntry.2 ≤ times.getLast hne - ts
    show (0:ℚ) ≤ times.getLast hne - ts
    linarith
  · intro hempty
    rw [habuf] at hempty
    have hlen : (entries ++ [sentinelEntry]).length ≤ k :=
      List.drop_eq_nil_iff.mp hempty
    rw [hb, hbuf, List.take_of_length_le hlen]
    have hsent : sentinelEntry ∈ entries ++ [sentinelEntry] := by simp
    have hmemmap : Event.pushFrame (entryFrame sentinelEntry) ∈
        (entries ++ [sentinelEntry]).map (fun p => Event.pushFrame (entryFrame p)) :=
      List.mem_map_of_mem _ hsent
    have hframe : entryFrame sentinelEntry = Frame.llmFullResponseEnd := by
      simp [entryFrame, sentinelEntry]
    rwa [hframe] at hmemmap

/-- Witness for C1 at a concrete buffer and concrete iteration times. -/
theorem C1_timeline_replay_order_witness :
    ((0:ℚ) < 1 ∧ ∀ t ∈ [(13:ℚ)/10, 2], (1:ℚ) ≤ t) ∧
    (∃ k,
      (runTicks c1state [(13:ℚ)/10, 2]).2 =
        (([("hello", (3:ℚ)/10)] ++ [sentinelEntry]).take k).map
          (fun p => Event.pushFrame (entryFrame p)) ∧
      (runTicks c1state [(13:ℚ)/10, 2]).1.timestamped_words_buffer =
        ([("hello", (3:ℚ)/10)] ++ [sentinelEntry]).drop k ∧
      (∀ p ∈ ([("hello", (3:ℚ)/10)] ++ [sentinelEntry]).take k,
        ∃ t ∈ [(13:ℚ)/10, 2], p.2 ≤ t - 1) ∧
      (∀ q l', (runTicks c1state [(13:ℚ)/10, 2]).1.timestamped_words_buffer = q :: l' →
        ([(13:ℚ)/10, 2] : List ℚ) ≠ [] → q ≠ sentinelEntry) ∧
      ((runTicks c1state [(13:ℚ)/10, 2]).1.timestamped_words_buffer = [] →
        Event.pushFrame Frame.llmFullResponseEnd ∈ (runTicks c1state [(13:ℚ)/10, 2]).2)) :=
  ⟨⟨by norm_num, by intro t ht; fin_cases ht <;> norm_num⟩,
   C1_timeline_replay_order c1state [("hello", 3/10)] 1 [(13:ℚ)/10, 2]
     rfl rfl (by norm_num) (by intro t ht; fin_cases ht <;> norm_num)⟩

/-- C4: the interruption handler clears the context id, the start timestamp
and the timeline buffer, stops open metrics, pushes exactly one forced
end-of-response frame directly (not via the scheduler), and afterwards no
run of scheduler iterations emits anything and every well-formed inbound
message is discarded without effect. -/
theorem C4_interruption_reset (s : TTSState) :
    (handle_interruption s).1.context_id = none ∧
    (handle_interruption s).1.context_id_start_timestamp = none ∧
    (handle_interruption s).1.timestamped_words_buffer = [] ∧
    Event.stopAllMetrics ∈ (handle_interruption s).2 ∧
    countLLMEnd (handle_interruption s).2 = 1 ∧
    (∀ times : List ℚ, (runTicks (handle_interruption s).1 times).2 = []) ∧
    (∀ (m : ServerMsg) (now : ℚ),
      processMsg (handle_interruption s).1 (RawMsg.msg m) now =
        Except.ok ((handle_interruption s).1, [])) := by
  refine ⟨rfl, rfl, rfl, ?_, ?_, ?_, ?_⟩
  · simp [handle_interruption]
  · rfl
  · intro times
    rw [runTicks_none (handle_interruption s).1 rfl times]
  · intro m now
    exact processMsg_skip _ m now (by simp [handle_interruption])

/-- C8: an inbound well-formed message whose context id differs from the
currently tracked context id leaves the state unchanged and emits nothing. -/
theorem C8_stale_message_no_effect (s : TTSState) (m : ServerMsg) (now : ℚ)
    (h : s.context_id ≠ some (msgContextId m)) :
    processMsg s (RawMsg.msg m) now = Except.ok (s, []) := by
  simp [processMsg, h]

/-- Witness for C8: a late timestamps message from a superseded context. -/
theorem C8_stale_message_no_effect_witness :
    trackc.context_id ≠ some "old" ∧
    processMsg trackc (RawMsg.msg (ServerMsg.timestamps "old" ["w"] [1])) 3 =
      Except.ok (trackc, []) :=
  ⟨by decide,
   C8_stale_message_no_effect trackc (ServerMsg.timestamps "old" ["w"] [1]) 3
     (by decide)⟩

/-- C10: while no context id is tracked, the demultiplexer loop discards
every well-formed inbound message — including late timestamps or chunk
messages of a context that already completed — leaving the state unchanged
and emitting nothing. -/
theorem C10_no_context_discards_all (s : TTSState) (msgs : List (RawMsg × ℚ))
    (hc : s.context_id = none)
    (hw : ∀ p ∈ msgs, ∃ m, p.1 = RawMsg.msg m) :
    receive_loop s msgs = (s, []) := by
  induction msgs with
  | nil => simp [receive_loop]
  | cons p rest ih =>
    obtain ⟨raw, now⟩ := p
    obtain ⟨m, hm⟩ := hw _ (List.mem_cons_self _ _)
    simp only at hm
    subst hm
    have hskip : processMsg s (RawMsg.msg m) now = Except.ok (s, []) :=
      processMsg_skip s m now (by simp [hc])
    have hrest := ih (fun q hq => hw q (List.mem_cons_of_mem _ hq))
    simp [receive_loop, hskip, hrest]

/-- Witness for C10: late timestamps and chunk messages arriving after the
context completed (no context tracked) are all silently lost. -/
theorem C10_no_context_discards_all_witness :
    conn0.context_id = none ∧
    receive_loop conn0
      [(RawMsg.msg (ServerMsg.timestamps "c" ["hello"] [1]), 4),
       (RawMsg.msg (ServerMsg.chunk "c" [9]), 5)] = (conn0, []) :=
  ⟨rfl,
   C10_no_context_discards_all conn0
     [(RawMsg.msg (ServerMsg.timestamps "c" ["hello"] [1]), 4),
      (RawMsg.msg (ServerMsg.chunk "c" [9]), 5)]
     rfl (by intro p hp; fin_cases hp <;> exact ⟨_, rfl⟩)⟩

/-- C2 counterexample: after the second context's first chunk, observed at
time 10, the recorded start timestamp is still 5 — the arrival time of the
FIRST context's first chunk — because a done message retains the timestamp
and a chunk only records it while it is still unset. -/
theorem C2_counterexample :
    (run conn0 c2steps).1.context_id = some "c2" ∧
    (run conn0 c2steps).1.context_id_start_timestamp = some 5 ∧
    (run conn0 c2steps).1.context_id_start_timestamp ≠ some 10 := by
  norm_num [run, runStep, c2steps, run_tts, connect, conn0, fresh0, initState,
    processMsg, tick, drain, msgContextId, optQTruthy, sentinelEntry, entryFrame,
    fmt0, handle_interruption, disconnect]

/-- C2 amended: a chunk for the current context records the start timestamp
only while the timestamp is Python-falsy (unset); once it is set, no
inbound message changes it — in particular, after a first context completed
normally (which retains the timestamp), the second context's first chunk
does not re-record it. -/
theorem C2_amended_start_timestamp (s : TTSState) (cid : String)
    (data : List ℕ) (now : ℚ) (hc : s.context_id = some cid) :
    (optQTruthy s.context_id_start_timestamp = false →
      ∃ s' evs, processMsg s (RawMsg.msg (ServerMsg.chunk cid data)) now =
          Except.ok (s', evs) ∧ s'.context_id_start_timestamp = some now) ∧
    (optQTruthy s.context_id_start_timestamp = true →
      ∀ (m : ServerMsg) (s' : TTSState) (evs : List Event),
        processMsg s (RawMsg.msg m) now = Except.ok (s', evs) →
        s'.context_id_start_timestamp = s.context_id_start_timestamp) := by
  constructor
  · intro hfalse
    by_cases hw : s.waiting_for_ttfb
    · refine ⟨{ s with context_id_start_timestamp := some now,
                       waiting_for_ttfb := false },
        [Event.stopTTFB,
         Event.pushFrame (Frame.audioRaw data s.output_format.sample_rate 1)],
        ?_, rfl⟩
      simp [processMsg, hc, msgContextId, hfalse, hw]
    · refine ⟨{ s with context_id_start_timestamp := some now },
        [Event.pushFrame (Frame.audioRaw data s.output_format.sample_rate 1)],
        ?_, rfl⟩
      simp [processMsg, hc, msgContextId, hfalse, hw]
  · intro htrue m s' evs hok
    by_cases hmatch : s.context_id = some (msgContextId m)
    · cases m with
      | done c =>
        simp [processMsg, hmatch] at hok
        rw [← hok.1]
      | timestamps c ws es =>
        simp [processMsg, hmatch] at hok
        rw [← hok.1]
      | chunk c d =>
        simp [processMsg, hmatch, htrue] at hok
        by_cases hw : s.waiting_for_ttfb <;> simp [hw] at hok <;> rw [← hok.1]
    · rw [processMsg_skip s m now hmatch] at hok
      simp at hok
      rw [← hok.1]

/-- Witness for the amended C2: with the timestamp already set to 5, a chunk
for the current context observed at time 10 leaves it at 5. -/
theorem C2_amended_start_timestamp_witness :
    c2wstate.context_id = some "c2" ∧
    (optQTruthy c2wstate.context_id_start_timestamp = true →
      ∀ (m : ServerMsg) (s' : TTSState) (evs : List Event),
        processMsg c2wstate (RawMsg.msg m) 10 = Except.ok (s', evs) →
        s'.context_id_start_timestamp = c2wstate.context_id_start_timestamp) :=
  ⟨rfl, (C2_amended_start_timestamp c2wstate "c2" [0] 10 rfl).2⟩

/-- C3 counterexample: a non-falsy message lacking a context id raises, and
the exception terminates the demultiplexer loop: a following valid chunk
message for the current context is never processed (no state change, no
frames), although processing it alone would have had effects. -/
theorem C3_counterexample :
    receive_loop c3state
      [(RawMsg.noContextId, 1), (RawMsg.msg (ServerMsg.chunk "c" [7]), 2)] =
      (c3state, []) ∧
    receive_loop c3state [(RawMsg.msg (ServerMsg.chunk "c" [7]), 2)] ≠
      (c3state, []) := by
  constructor
  · simp [receive_loop, processMsg]
  · intro h
    have hts := congrArg (fun r => r.1.context_id_start_timestamp) h
    simp [receive_loop, processMsg, c3state, conn0, fresh0, initState, connect,
      fmt0, msgContextId, optQTruthy] at hts

/-- C3 amended: a Python-falsy inbound message is dropped silently and the
loop continues with the next message; but a decode/processing error while
handling one message (for example a non-falsy message with no context id)
terminates the whole demultiplexer loop: the state is left as it was and
all remaining messages are discarded unprocessed. -/
theorem C3_amended_loop_stops_on_error (s : TTSState) (now : ℚ)
    (rest : List (RawMsg × ℚ)) (raw : RawMsg)
    (h : ∃ err, processMsg s raw now = Except.error err) :
    receive_loop s ((raw, now) :: rest) = (s, []) ∧
    receive_loop s ((RawMsg.empty, now) :: rest) = receive_loop s rest := by
  obtain ⟨err, herr⟩ := h
  constructor
  · simp [receive_loop, herr]
  · simp [receive_loop, processMsg]

/-- Witness for the amended C3 at a concrete state and message list. -/
theorem C3_amended_loop_stops_on_error_witness :
    (∃ err, processMsg c3state RawMsg.noContextId 1 = Except.error err) ∧
    (receive_loop c3state
      [(RawMsg.noContextId, 1), (RawMsg.msg (ServerMsg.done "c"), 2)] =
        (c3state, []) ∧
     receive_loop c3state
      [(RawMsg.empty, 1), (RawMsg.msg (ServerMsg.done "c"), 2)] =
        receive_loop c3state [(RawMsg.msg (ServerMsg.done "c"), 2)]) :=
  ⟨⟨"KeyError: context_id", rfl⟩,
   C3_amended_loop_stops_on_error c3state 1
     [(RawMsg.msg (ServerMsg.done "c"), 2)] RawMsg.noContextId
     ⟨"KeyError: context_id", rfl⟩⟩

/-- C5 counterexample: the interruption handler clears the timeline buffer
while both background tasks remain uncancelled (no cancellation happens or
is awaited on the interruption path at all). -/
theorem C5_counterexample :
    (handle_interruption c5state).1.receive_task = true ∧
    (handle_interruption c5state).1.context_appending_task = true ∧
    (handle_interruption c5state).1.timestamped_words_buffer = [] ∧
    Event.cancelReceiveTask ∉ (handle_interruption c5state).2 ∧
    Event.cancelContextAppendingTask ∉ (handle_interruption c5state).2 := by
  refine ⟨rfl, rfl, rfl, ?_, ?_⟩ <;> decide

/-- C5 amended: disconnecting requests cancellation of both background
tasks (without awaiting them) and does so before the state-reset
assignments run — every cancellation event precedes the reset event —
whereas interrupting cancels neither task: it clears the context state
directly while both tasks keep running. -/
theorem C5_amended_cancellation (s : TTSState) (closeRaises : Bool) :
    (disconnect s closeRaises).1.receive_task = false ∧
    (disconnect s closeRaises).1.context_appending_task = false ∧
    (s.context_appending_task = true →
      Event.cancelContextAppendingTask ∈ (disconnect s closeRaises).2) ∧
    (s.receive_task = true →
      Event.cancelReceiveTask ∈ (disconnect s closeRaises).2) ∧
    (∀ (i j : Fin (disconnect s closeRaises).2.length),
      ((disconnect s closeRaises).2.get i = Event.cancelContextAppendingTask ∨
       (disconnect s closeRaises).2.get i = Event.cancelReceiveTask) →
      (disconnect s closeRaises).2.get j = Event.resetContextState →
      (i : ℕ) < (j : ℕ)) ∧
    (handle_interruption s).1.receive_task = s.receive_task ∧
    (handle_interruption s).1.context_appending_task = s.context_appending_task ∧
    (∀ e ∈ (handle_interruption s).2,
      e ≠ Event.cancelReceiveTask ∧ e ≠ Event.cancelContextAppendingTask) := by
  obtain ⟨mi, vi, of, la, ws, ci, tsa, buf, rt, ca, wt⟩ := s
  cases ws <;> cases rt <;> cases ca <;> cases closeRaises <;>
    refine ⟨rfl, rfl, ?_, ?_, ?_, rfl, rfl, ?_⟩ <;>
    (try simp [disconnect, handle_interruption]) <;>
    (try decide)

/-- Witness for the amended C5 at a concrete state with both tasks
running. -/
theorem C5_amended_cancellation_witness :
    (c5state.context_appending_task = true →
      Event.cancelContextAppendingTask ∈ (disconnect c5state false).2) ∧
    (c5state.receive_task = true →
      Event.cancelReceiveTask ∈ (disconnect c5state false).2) ∧
    (handle_interruption c5state).1.receive_task = c5state.receive_task :=
  ⟨(C5_amended_cancellation c5state false).2.2.1,
   (C5_amended_cancellation c5state false).2.2.2.1,
   (C5_amended_cancellation c5state false).2.2.2.2.2.1⟩

/-- C6 counterexample: when closing the handle raises, the exception is
caught before the reset assignments run, so the context id, timeline buffer
and TTFB flag survive the call — and a second disconnect call produces a
different state than the first, refuting idempotence as claimed. -/
theorem C6_counterexample :
    (disconnect c6state true).1.context_id = some "ctx-1" ∧
    (disconnect c6state true).1.waiting_for_ttfb = true ∧
    (disconnect c6state true).1.timestamped_words_buffer = [("hi", 1)] ∧
    (disconnect (disconnect c6state true).1 true).1 ≠ (disconnect c6state true).1 := by
  refine ⟨rfl, rfl, rfl, ?_⟩
  intro h
  have hci := congrArg TTSState.context_id h
  simp [disconnect, c6state, conn0, fresh0, initState, connect, fmt0] at hci

/-- C6 amended: whenever closing the handle does not raise (including when
no handle or no tasks exist at all), disconnect resets the context id,
start timestamp, timeline buffer and TTFB flag to their initial values and
is idempotent; when close raises, the resets are skipped. -/
theorem C6_amended_disconnect (s : TTSState) :
    (disconnect s false).1.context_id = none ∧
    (disconnect s false).1.context_id_start_timestamp = none ∧
    (disconnect s false).1.timestamped_words_buffer = [] ∧
    (disconnect s false).1.waiting_for_ttfb = false ∧
    (disconnect s false).1.websocket = false ∧
    (disconnect (disconnect s false).1 false).1 = (disconnect s false).1 := by
  obtain ⟨mi, vi, of, la, ws, ci, tsa, buf, rt, ca, wt⟩ := s
  cases ws <;> cases rt <;> cases ca <;> simp [disconnect]

/-- C7: run_tts connects first when disconnected, opens a TTFB window when
none is open, uses the freshly generated id when no context is open, every
request it sends carries the text with one trailing space, the continue
flag, the current context id and the add_timestamps flag; and when the
send fails it disconnects, reconnects, and completes normally (the
function is total: no exception reaches the caller). -/
theorem C7_run_tts_contract (s : TTSState) (text newId : String)
    (connectFails sendFails reconnectFails : Bool) :
    (s.websocket = false →
      Event.connectAttempt ∈
        (run_tts s text newId connectFails sendFails false reconnectFails).2) ∧
    (s.waiting_for_ttfb = false →
      Event.startTTFB ∈
        (run_tts s text newId connectFails sendFails false reconnectFails).2) ∧
    (∀ req, Event.sendAttempt req ∈
        (run_tts s text newId connectFails sendFails false reconnectFails).2 →
      req.transcript = text ++ " " ∧ req.continue_ = true ∧
      req.context_id = s.context_id.getD newId ∧ req.add_timestamps = true) ∧
    ((s.websocket = true ∨ connectFails = false) →
      ∃ req, Event.sendAttempt req ∈
        (run_tts s text newId connectFails sendFails false reconnectFails).2) ∧
    (s.websocket = true → sendFails = false →
      (run_tts s text newId connectFails sendFails false reconnectFails).1.context_id =
        some (s.context_id.getD newId) ∧
      (run_tts s text newId connectFails sendFails false reconnectFails).1.waiting_for_ttfb = true) ∧
    (s.websocket = true → sendFails = true →
      (run_tts s text newId connectFails sendFails false reconnectFails).1.context_id = none ∧
      (run_tts s text newId connectFails sendFails false reconnectFails).1.context_id_start_timestamp = none ∧
      (run_tts s text newId connectFails sendFails false reconnectFails).1.timestamped_words_buffer = [] ∧
      (run_tts s text newId connectFails sendFails false reconnectFails).1.waiting_for_ttfb = false ∧
      (run_tts s text newId connectFails sendFails false reconnectFails).1.websocket = !reconnectFails ∧
      Event.connectAttempt ∈
        (run_tts s text newId connectFails sendFails false reconnectFails).2) := by
  obtain ⟨mi, vi, of, la, ws, ci, tsa, buf, rt, ca, wt⟩ := s
  cases ws <;> cases wt <;> cases ci <;> cases connectFails <;> cases sendFails <;>
    cases reconnectFails <;> simp [run_tts, connect, disconnect, Option.getD]

/-- Witness for C7 on a connected fresh service with a successful send. -/
theorem C7_run_tts_contract_witness :
    (conn0.waiting_for_ttfb = false →
      Event.startTTFB ∈ (run_tts conn0 "hi" "c1" false false false false).2) ∧
    (∀ req, Event.sendAttempt req ∈ (run_tts conn0 "hi" "c1" false false false false).2 →
      req.transcript = "hi" ++ " " ∧ req.continue_ = true ∧
      req.context_id = conn0.context_id.getD "c1" ∧ req.add_timestamps = true) ∧
    ((conn0.websocket = true ∨ (false : Bool) = false) →
      ∃ req, Event.sendAttempt req ∈ (run_tts conn0 "hi" "c1" false false false false).2) ∧
    (conn0.websocket = true → (false : Bool) = false →
      (run_tts conn0 "hi" "c1" false false false false).1.context_id =
        some (conn0.context_id.getD "c1") ∧
      (run_tts conn0 "hi" "c1" false false false false).1.waiting_for_ttfb = true) :=
  ⟨(C7_run_tts_contract conn0 "hi" "c1" false false false).2.1,
   (C7_run_tts_contract conn0 "hi" "c1" false false false).2.2.1,
   (C7_run_tts_contract conn0 "hi" "c1" false false false).2.2.2.1,
   (C7_run_tts_contract conn0 "hi" "c1" false false false).2.2.2.2.1⟩

/-- C9 counterexample: after the trace in which one response was started
and already completed normally (exactly one marker emitted by step 4), the
interruption handler emits a second forced end-of-response marker: two
markers follow a single started response, refuting never-more-than-one. -/
theorem C9_counterexample :
    countLLMEnd (run conn0 (c9steps.take 4)).2 = 1 ∧
    countLLMEnd (run conn0 c9steps).2 = 2 := by
  constructor <;>
  norm_num [run, runStep, c9steps, run_tts, connect, conn0, fresh0, initState,
    processMsg, tick, drain, msgContextId, optQTruthy, sentinelEntry, entryFrame,
    fmt0, handle_interruption, disconnect, countLLMEnd, List.count_cons] <;> simp

/-- C9 amended: a started response yields exactly one forced end-of-response
marker when it either completes normally with no surrounding interruption
(chunk at t0 > 0, done, then a scheduler iteration at t1 with t0 ≤ t1) or
is interrupted before completion; an interruption arriving after normal
completion emits an additional marker, so uniqueness holds only in the
absence of such a late interruption. -/
theorem C9_amended_single_marker (text cid : String) (data : List ℕ) (t0 t1 : ℚ)
    (h0 : 0 < t0) (h01 : t0 ≤ t1) :
    countLLMEnd (run conn0
      [Step.runTTSStep text cid false false false false,
       Step.recv (RawMsg.msg (ServerMsg.chunk cid data)) t0,
       Step.recv (RawMsg.msg (ServerMsg.done cid)) t1,
       Step.tickAt t1]).2 = 1 ∧
    countLLMEnd (run conn0
      [Step.runTTSStep text cid false false false false,
       Step.interrupt]).2 = 1 := by
  have hne : t0 ≠ 0 := ne_of_gt h0
  have hdue : (0:ℚ) ≤ t1 - t0 := by linarith
  constructor <;>
  simp [run, runStep, run_tts, connect, conn0, fresh0, initState, processMsg,
    tick, drain, msgContextId, optQTruthy, sentinelEntry, entryFrame, fmt0,
    handle_interruption, countLLMEnd, List.count_cons, hne, hdue]

/-- Witness for the amended C9 at concrete times 1 and 2. -/
theorem C9_amended_single_marker_witness :
    ((0:ℚ) < 1 ∧ (1:ℚ) ≤ 2) ∧
    (countLLMEnd (run conn0
      [Step.runTTSStep "hi" "c1" false false false false,
       Step.recv (RawMsg.msg (ServerMsg.chunk "c1" [0])) 1,
       Step.recv (RawMsg.msg (ServerMsg.done "c1")) 2,
       Step.tickAt 2]).2 = 1 ∧
     countLLMEnd (run conn0
      [Step.runTTSStep "hi" "c1" false false false false,
       Step.interrupt]).2 = 1) :=
  ⟨⟨by norm_num, by norm_num⟩,
   C9_amended_single_marker "hi" "c1" [0] 1 2 (by norm_num) (by norm_num)⟩

end CartesiaTTS
